import Mathlib

/-!
Shallow embedding of the SEO evaluation module
(src/seo_pipeline/evaluation.py) of the SEO content automation pipeline.

Python floats are modelled by exact rationals, Python int() truncation and
round() banker rounding are modelled explicitly, and the regex based word
and sentence extraction is modelled by explicit scanners over character
lists.  Strings are handled as List Char via String.toList.
-/

/-- A character counted by the regex class backslash-w (ASCII): letters,
digits, underscore. -/
def isWordChar (c : Char) : Bool :=
  c.isAlpha || c.isDigit || c == '_'

/-- A character that can occur inside a word match of the pattern used by
the evaluator: word characters plus apostrophe and hyphen. -/
def isRunChar (c : Char) : Bool :=
  isWordChar c || c == Char.ofNat 39 || c == '-'

/-- Whitespace characters removed by the Python str.strip method
(ASCII subset). -/
def isPySpace (c : Char) : Bool :=
  c == ' ' || c == Char.ofNat 9 || c == Char.ofNat 10 || c == Char.ofNat 13
    || c == Char.ofNat 11 || c == Char.ofNat 12

/-- Python str.strip: remove leading and trailing whitespace. -/
def pyStrip (s : List Char) : List Char :=
  ((s.dropWhile isPySpace).reverse.dropWhile isPySpace).reverse

/-- Maximal runs of characters satisfying p, in order, empty runs dropped. -/
def collectRuns (p : Char → Bool) (s : List Char) : List (List Char) :=
  let step := fun (acc : List (List Char) × List Char) (c : Char) =>
    if p c then (acc.1, acc.2 ++ [c])
    else if acc.2 = [] then (acc.1, ([] : List Char))
    else (acc.1 ++ [acc.2], [])
  let r := s.foldl step ([], [])
  if r.2 = [] then r.1 else r.1 ++ [r.2]

/-- Split a character list at every character satisfying p, keeping empty
fragments (the behaviour of splitting on a single-character regex). -/
def splitOnPred (p : Char → Bool) (s : List Char) : List (List Char) :=
  let step := fun (acc : List (List Char) × List Char) (c : Char) =>
    if p c then (acc.1 ++ [acc.2], ([] : List Char))
    else (acc.1, acc.2 ++ [c])
  let r := s.foldl step ([], [])
  r.1 ++ [r.2]

/-- Trim a run of word-adjacent characters to the segment from its first
word character to its last word character: this is what the regex
findall with pattern backslash-b [backslash-w apostrophe hyphen]+
backslash-b extracts from each maximal run. -/
def trimRun (run : List Char) : List Char :=
  ((run.dropWhile (fun c => !isWordChar c)).reverse.dropWhile
    (fun c => !isWordChar c)).reverse

/-- The word list extracted by re.findall with the evaluator word pattern:
per maximal run of word-adjacent characters, the segment between the first
and last word character; runs without word characters yield nothing. -/
def pyWords (s : List Char) : List (List Char) :=
  ((collectRuns isRunChar s).map trimRun).filter (fun w => !w.isEmpty)

/-- The sentence fragments used by the readability estimator: split the
text on the characters . ! ?, strip each fragment, drop blank fragments. -/
def sentence_fragments (s : List Char) : List (List Char) :=
  ((splitOnPred (fun c => c == '.' || c == '!' || c == '?') s).map pyStrip).filter
    (fun f => !f.isEmpty)

/-- Vowel characters used by the syllable estimator. -/
def isVowelChar (c : Char) : Bool :=
  c == 'a' || c == 'e' || c == 'i' || c == 'o' || c == 'u' || c == 'y'

/-- Count of vowel-group starts: positions where a vowel follows a
non-vowel, scanning left to right; the Bool argument carries whether the
previous character was a vowel. -/
def vowelGroupCount : List Char → Bool → Nat
  | [], _ => 0
  | c :: rest, prev =>
    (if isVowelChar c && !prev then 1 else 0) + vowelGroupCount rest (isVowelChar c)

/-- Embedding of _count_syllables: lower-case the word, count vowel-group
starts, drop one when the word ends in e and the count exceeds 1, floor
the result at 1. -/
def count_syllables (word : List Char) : Nat :=
  let w := word.map Char.toLower
  let base := vowelGroupCount w false
  let adjusted := if w.getLast? == some 'e' && decide (1 < base) then base - 1 else base
  max adjusted 1

/-- Embedding of _flesch_reading_ease over exact rationals.  The Python
idiom (sum or 1) for the syllable total is rendered as an if on zero. -/
def flesch_reading_ease (text : List Char) : ℚ :=
  let sentence_count := max (sentence_fragments text).length 1
  let words := pyWords text
  let syllable_sum := (words.map count_syllables).sum
  let syllables := if syllable_sum = 0 then 1 else syllable_sum
  let word_count := max words.length 1
  206835/1000 - (1015/1000) * ((word_count : ℚ) / (sentence_count : ℚ))
    - (846/10) * ((syllables : ℚ) / (word_count : ℚ))

/-- Python int() on a real value: truncation toward zero. -/
def pyInt (q : ℚ) : ℤ :=
  if 0 ≤ q then ⌊q⌋ else ⌈q⌉

/-- Python round() to the nearest integer, ties to the even integer. -/
def pyRound (q : ℚ) : ℤ :=
  let f := ⌊q⌋
  let r := q - (f : ℚ)
  if r < 1/2 then f
  else if (1/2 : ℚ) < r then f + 1
  else if f % 2 = 0 then f else f + 1

/-- Embedding of _score_range: 0 at exactly 0, 100 inside the band,
a dampened ratio below the band, a steeper overshoot penalty above it,
with the divisor guarded by max against tiny high values. -/
def score_range (value low high : ℚ) : ℤ :=
  if value = 0 then 0
  else if low ≤ value ∧ value ≤ high then 100
  else if value < low then max 0 (pyInt (value / low * 80))
  else max 0 (pyInt (100 - (value - high) / max high (1/1000000000) * 120))

/-- Embedding of _clamp_score: round to nearest, clamp into [0, 100]. -/
def clamp_score (score : ℚ) : ℤ :=
  min (max (pyRound score) 0) 100

/-- The overshoot formula exactly as claim C4 words it: the denominator is
high itself, with a tiny epsilon substituted only when high is 0.  The
source instead guards with max, replacing every high below the epsilon. -/
def overshoot_formula_spec (value high : ℚ) : ℤ :=
  max 0 ⌊100 - 120 * ((value - high) / (if high = 0 then 1/1000000000 else high))⌋

/-- Whether position i of s sits on a word character (false out of range). -/
def wordCharAt (s : List Char) (i : Nat) : Bool :=
  match s.get? i with
  | some c => isWordChar c
  | none => false

/-- Regex word boundary backslash-b at position i of s: exactly one of the
two adjacent positions holds a word character. -/
def boundaryAt (s : List Char) (i : Nat) : Bool :=
  (if i = 0 then false else wordCharAt s (i - 1)) != wordCharAt s i

/-- Whether the literal pattern pat matches at position i of s with word
boundaries on both sides, as the escaped pattern backslash-b pat
backslash-b does. -/
def matchAt (s pat : List Char) (i : Nat) : Bool :=
  ((s.drop i).take pat.length == pat) && boundaryAt s i && boundaryAt s (i + pat.length)

/-- Scanner for non-overlapping leftmost matches, with explicit fuel. -/
def countMatchesAux (s pat : List Char) : Nat → Nat → Nat
  | _, 0 => 0
  | i, fuel + 1 =>
    if s.length < i then 0
    else if matchAt s pat i then 1 + countMatchesAux s pat (i + pat.length) fuel
    else countMatchesAux s pat (i + 1) fuel

/-- Number of matches that re.findall returns for the whole-word literal
pattern pat over s. -/
def countMatches (s pat : List Char) : Nat :=
  countMatchesAux s pat 0 (s.length + 1)

/-- Whether re.search finds a whole-word match of the literal pattern pat
anywhere in s. -/
def hasMatch (s pat : List Char) : Bool :=
  (List.range (s.length + 1)).any (fun i => matchAt s pat i)

/-- Python substring containment: pat occurs contiguously inside s. -/
def isSubstring (pat s : List Char) : Bool :=
  (List.range (s.length + 1)).any (fun i => (s.drop i).take pat.length == pat)

/-- Collapse the line terminators recognised here (backslash-r
backslash-n, lone backslash-r) to a single newline character. -/
def normalizeNewlines : List Char → List Char
  | [] => []
  | [c] => if c == Char.ofNat 13 then [Char.ofNat 10] else [c]
  | c :: d :: rest =>
    if c == Char.ofNat 13 then
      if d == Char.ofNat 10 then Char.ofNat 10 :: normalizeNewlines rest
      else Char.ofNat 10 :: normalizeNewlines (d :: rest)
    else c :: normalizeNewlines (d :: rest)

/-- Python str.splitlines restricted to the common terminators: empty text
gives no lines, and a trailing terminator does not open a final empty
line. -/
def pyLines (s : List Char) : List (List Char) :=
  if s = [] then []
  else
    let t := normalizeNewlines s
    let parts := splitOnPred (fun c => c == Char.ofNat 10) t
    if t.getLast? = some (Char.ofNat 10) then parts.dropLast else parts

/-- The content record consumed by the evaluator. -/
structure SEOContent where
  title : String
  body : String
  summary : String
  meta_description : String
deriving DecidableEq

/-- The evaluation record produced by the evaluator. -/
structure SEOEvaluation where
  total_score : ℤ
  keyword_density : ℚ
  keyword_density_score : ℤ
  keyword_coverage_score : ℤ
  first_paragraph_score : ℤ
  headings_score : ℤ
  readability_score : ℤ
  meta_description_score : ℤ
  notes : List String
deriving DecidableEq

/-- Outcome of the evaluator: a result, or the message of the raised
SEOEvaluationError. -/
inductive EvalResult where
  | ok (result : SEOEvaluation)
  | error (msg : String)
deriving DecidableEq

/-- Whether an outcome is a returned result. -/
def EvalResult.isOk : EvalResult → Bool
  | .ok _ => true
  | .error _ => false

/-- Projection of the headings sub-score out of an outcome. -/
def EvalResult.headingsScore? : EvalResult → Option ℤ
  | .ok r => some r.headings_score
  | .error _ => none

/-- Projection of the meta-description sub-score out of an outcome. -/
def EvalResult.metaScore? : EvalResult → Option ℤ
  | .ok r => some r.meta_description_score
  | .error _ => none

/-- The keyword normalisation of evaluate_seo_content: strip every
keyword, keep the non-blank ones in order. -/
def clean_keywords (keywords : List String) : List (List Char) :=
  keywords.filterMap (fun kw =>
    if pyStrip kw.toList = [] then none else some (pyStrip kw.toList))

/-- The primary keyword before stripping: the explicit argument when it is
a non-empty string (Python truthiness), else the first cleaned keyword. -/
def resolve_primary (cleaned : List (List Char)) (primary_keyword : Option String) : List Char :=
  match primary_keyword with
  | some s => if s.toList = [] then cleaned.headD [] else s.toList
  | none => cleaned.headD []

/-- Keyword density: whole-word matches of the primary keyword over the
total word count, 0 when the body has no words. -/
def keyword_density_of (body_lower primary_lower : List Char) : ℚ :=
  let total_words := (pyWords body_lower).length
  if total_words = 0 then 0
  else (countMatches body_lower primary_lower : ℚ) / (total_words : ℚ)

/-- Density sub-score: the density mapped through the 0.007 to 0.03 band
and clamped. -/
def density_score_of (body_lower primary_lower : List Char) : ℤ :=
  clamp_score (((score_range (keyword_density_of body_lower primary_lower)
    (7/1000) (3/100) : ℤ) : ℚ) * 1)

/-- Coverage sub-score: the share of cleaned keywords with a whole-word
occurrence in the body, as a clamped percentage. -/
def coverage_score_of (body_lower : List Char) (cleaned : List (List Char)) : ℤ :=
  let hits := (cleaned.filter (fun term => hasMatch body_lower (term.map Char.toLower))).length
  clamp_score (((hits : ℚ) / (cleaned.length : ℚ)) * 100)

/-- First-paragraph sub-score: 100 when the lowered primary keyword is a
substring of the first 100 extracted words joined by single spaces. -/
def first_paragraph_score_of (body_lower primary_lower : List Char) : ℤ :=
  if isSubstring primary_lower (List.intercalate [' '] ((pyWords body_lower).take 100))
  then 100 else 0

/-- Headings sub-score: 40 for an H1 line, 20 per H2 line counted up to 3,
capped at 100; lines are stripped before the marker test. -/
def headings_score_of (body : List Char) : ℤ :=
  let heading_lines := (pyLines body).map pyStrip
  let has_h1 := heading_lines.any (fun line => List.isPrefixOf ['#', ' '] line)
  let h2_count := (heading_lines.filter (fun line => List.isPrefixOf ['#', '#', ' '] line)).length
  min ((if has_h1 then 40 else 0) + ((min h2_count 3 : ℕ) : ℤ) * 20) 100

/-- Readability sub-score: the Flesch value mapped through the 50 to 70
band and clamped. -/
def readability_score_of (body : List Char) : ℤ :=
  clamp_score ((score_range (flesch_reading_ease body) 50 70 : ℤ) : ℚ)

/-- Meta-description sub-score: 70 or 40 by trimmed length band, plus 30
when the lowered primary keyword is a substring, capped at 100. -/
def meta_score_of (meta_description primary_lower : List Char) : ℤ :=
  let m := pyStrip meta_description
  let meta_len := m.length
  let contains_primary := isSubstring primary_lower (m.map Char.toLower)
  let base : ℤ :=
    if 120 ≤ meta_len ∧ meta_len ≤ 160 then 70
    else if (90 ≤ meta_len ∧ meta_len < 120) ∨ (160 < meta_len ∧ meta_len ≤ 180) then 40
    else 0
  min (base + (if contains_primary = true then 30 else 0)) 100

/-- Weighted composite of the six sub-scores, clamped. -/
def total_score_of (kd kc fp hs rs ms : ℤ) : ℤ :=
  clamp_score ((kd : ℚ) * (2/10) + (kc : ℚ) * (15/100) + (fp : ℚ) * (1/10)
    + (hs : ℚ) * (2/10) + (rs : ℚ) * (2/10) + (ms : ℚ) * (15/100))

/-- The recommendation notes, in the fixed order of the source. -/
def notes_of (kd kc fp hs rs ms : ℤ) : List String :=
  (if kd < 60 then ["Adjust keyword density to stay within 0.7% - 3%."] else [])
  ++ (if kc < 80 then ["Ensure all target keywords appear at least once."] else [])
  ++ (if fp = 0 then ["Include the primary keyword within the first 100 words."] else [])
  ++ (if hs < 80 then ["Use clear H1 and multiple H2 headings for structure."] else [])
  ++ (if rs < 65 then ["Simplify language to improve readability (Flesch 50-70 target)."] else [])
  ++ (if ms < 90 then ["Optimize meta description length and include the primary keyword."] else [])

/-- The evaluation record built once the inputs passed validation. -/
def evaluate_core (content : SEOContent) (cleaned : List (List Char))
    (primary : List Char) : SEOEvaluation :=
  let body_lower := content.body.toList.map Char.toLower
  let primary_lower := primary.map Char.toLower
  let kd := density_score_of body_lower primary_lower
  let kc := coverage_score_of body_lower cleaned
  let fp := first_paragraph_score_of body_lower primary_lower
  let hs := headings_score_of content.body.toList
  let rs := readability_score_of content.body.toList
  let ms := meta_score_of content.meta_description.toList primary_lower
  { total_score := total_score_of kd kc fp hs rs ms
    keyword_density := keyword_density_of body_lower primary_lower
    keyword_density_score := kd
    keyword_coverage_score := kc
    first_paragraph_score := fp
    headings_score := hs
    readability_score := rs
    meta_description_score := ms
    notes := notes_of kd kc fp hs rs ms }

/-- Embedding of evaluate_seo_content: validate the keyword list and the
resolved primary keyword, then build the evaluation record. -/
def evaluate_seo_content (content : SEOContent) (keywords : List String)
    (primary_keyword : Option String) : EvalResult :=
  let cleaned := clean_keywords keywords
  if cleaned = [] then EvalResult.error "At least one keyword is required for SEO evaluation."
  else
    let primary := pyStrip (resolve_primary cleaned primary_keyword)
    if primary = [] then EvalResult.error "Primary keyword cannot be empty."
    else EvalResult.ok (evaluate_core content cleaned primary)

/-! ## Helper lemmas -/

theorem pyInt_intCast (n : ℤ) : pyInt (n : ℚ) = n := by
  unfold pyInt
  split
  · exact Int.floor_intCast n
  · exact Int.ceil_intCast n

theorem pyInt_mono {q r : ℚ} (h : q ≤ r) : pyInt q ≤ pyInt r := by
  unfold pyInt
  by_cases hq : 0 ≤ q
  · rw [if_pos hq, if_pos (le_trans hq h)]
    exact Int.floor_mono h
  · rw [if_neg hq]
    by_cases hr : 0 ≤ r
    · rw [if_pos hr]
      have h1 : ⌈q⌉ ≤ 0 := Int.ceil_le.mpr (by push_cast; linarith [lt_of_not_le hq])
      have h2 : (0 : ℤ) ≤ ⌊r⌋ := Int.floor_nonneg.mpr hr
      omega
    · rw [if_neg hr]
      exact Int.ceil_mono h

theorem pyInt_le_of_le {q : ℚ} {n : ℤ} (h : q ≤ (n : ℚ)) : pyInt q ≤ n := by
  calc pyInt q ≤ pyInt (n : ℚ) := pyInt_mono h
    _ = n := pyInt_intCast n

theorem max_zero_pyInt_eq_floor (q : ℚ) : max 0 (pyInt q) = max 0 ⌊q⌋ := by
  unfold pyInt
  by_cases hq : 0 ≤ q
  · rw [if_pos hq]
  · rw [if_neg hq]
    have h1 : ⌈q⌉ ≤ 0 := Int.ceil_le.mpr (by push_cast; linarith [lt_of_not_le hq])
    have h2 : ⌊q⌋ ≤ 0 := Int.floor_nonpos (le_of_lt (lt_of_not_le hq))
    omega

theorem clamp_score_bounds (q : ℚ) : 0 ≤ clamp_score q ∧ clamp_score q ≤ 100 := by
  unfold clamp_score
  omega

theorem score_range_zero (low high : ℚ) : score_range 0 low high = 0 := by
  unfold score_range
  simp

theorem score_range_inband {v low high : ℚ} (h0 : v ≠ 0) (h1 : low ≤ v) (h2 : v ≤ high) :
    score_range v low high = 100 := by
  unfold score_range
  rw [if_neg h0, if_pos ⟨h1, h2⟩]

theorem score_range_undershoot {v low high : ℚ} (h0 : v ≠ 0) (h1 : v < low) :
    score_range v low high = max 0 (pyInt (v / low * 80)) := by
  unfold score_range
  rw [if_neg h0, if_neg (fun hc => absurd hc.1 (not_le.mpr h1)), if_pos h1]

theorem score_range_overshoot {v low high : ℚ} (h0 : v ≠ 0) (h1 : low ≤ v) (h2 : high < v) :
    score_range v low high = max 0 (pyInt (100 - (v - high) / max high (1/1000000000) * 120)) := by
  unfold score_range
  rw [if_neg h0, if_neg (fun hc => absurd hc.2 (not_le.mpr h2)), if_neg (not_lt.mpr h1)]

theorem score_range_nonneg (v low high : ℚ) : 0 ≤ score_range v low high := by
  unfold score_range
  split_ifs
  · exact le_refl 0
  · norm_num
  · exact le_max_left 0 _
  · exact le_max_left 0 _

theorem score_range_le_100 {low : ℚ} (hlow : 0 < low) (v high : ℚ) :
    score_range v low high ≤ 100 := by
  unfold score_range
  split_ifs with h0 h1 h2
  · norm_num
  · exact le_refl 100
  · have hq : v / low * 80 ≤ ((80 : ℤ) : ℚ) := by
      have hr : v / low ≤ 1 := le_of_lt ((div_lt_one hlow).mpr h2)
      push_cast
      nlinarith
    have := pyInt_le_of_le hq
    omega
  · have hv : low ≤ v := not_lt.mp h2
    have hhv : high < v := by
      rcases not_and_or.mp h1 with ha | hb
      · exact absurd hv ha
      · exact not_le.mp hb
    have hD : (0 : ℚ) < max high (1/1000000000) := lt_of_lt_of_le (by norm_num) (le_max_right _ _)
    have hq : 100 - (v - high) / max high (1/1000000000) * 120 ≤ ((100 : ℤ) : ℚ) := by
      have hnum : (0 : ℚ) ≤ (v - high) / max high (1/1000000000) * 120 := by
        have := div_nonneg (le_of_lt (sub_pos.mpr hhv)) (le_of_lt hD)
        nlinarith
      push_cast
      linarith
    have := pyInt_le_of_le hq
    omega

/-! ## Claims C3, C4, C5 about the range scorer -/

/-- Claim C3 counterexample: with low = -1 and high = 1 the value 0 lies
inside the band, yet score_range returns 0 there, not 100, because the
zero special case is tested first. -/
theorem claim_C3_counterexample :
    ((-1 : ℚ) ≤ 0 ∧ (0 : ℚ) ≤ 1) ∧ score_range 0 (-1) 1 ≠ 100 := by
  refine ⟨⟨by norm_num, by norm_num⟩, ?_⟩
  rw [score_range_zero]
  decide

/-- Claim C3 (amended): score_range at value 0 returns 0 for every low and
high; and every non-zero value v with low ≤ v ≤ high scores 100. -/
theorem claim_C3_zero_and_band :
    (∀ low high : ℚ, score_range 0 low high = 0) ∧
    (∀ v low high : ℚ, v ≠ 0 → low ≤ v → v ≤ high → score_range v low high = 100) :=
  ⟨fun low high => score_range_zero low high,
   fun _ _ _ h0 h1 h2 => score_range_inband h0 h1 h2⟩

/-- Witness for the amended claim C3 at concrete inputs. -/
theorem claim_C3_zero_and_band_witness :
    score_range 0 5 7 = 0 ∧ score_range 6 5 7 = 100 :=
  ⟨claim_C3_zero_and_band.1 5 7,
   claim_C3_zero_and_band.2 6 5 7 (by norm_num) (by norm_num) (by norm_num)⟩

/-- Claim C4 counterexample: at value 1, low 2, high 1/2 the value exceeds
high, but the source takes the undershoot branch (value below low) and
returns 40, while the overshoot formula of the claim yields 0. -/
theorem claim_C4_counterexample :
    ((1 : ℚ) > 1/2) ∧ score_range 1 2 (1/2) = 40 ∧ overshoot_formula_spec 1 (1/2) = 0 := by
  refine ⟨by norm_num, ?_, ?_⟩
  · rw [score_range_undershoot (by norm_num) (by norm_num)]
    rw [show (1 : ℚ) / 2 * 80 = 40 by norm_num]
    rw [show pyInt (40 : ℚ) = 40 by
      unfold pyInt
      rw [if_pos (by norm_num : (0:ℚ) ≤ 40)]
      rw [show ((40:ℚ)) = ((40:ℤ) : ℚ) by norm_num, Int.floor_intCast]]
    decide
  · unfold overshoot_formula_spec
    rw [if_neg (by norm_num : ¬((1:ℚ)/2 = 0))]
    rw [show (100 : ℚ) - 120 * ((1 - 1/2) / (1/2)) = -20 by norm_num]
    rw [show ⌊(-20 : ℚ)⌋ = -20 by
      rw [show ((-20:ℚ)) = ((-20:ℤ) : ℚ) by norm_num, Int.floor_intCast]]
    decide

/-- Claim C4 (amended): for 0 < value < low the undershoot formula holds as
claimed; the overshoot formula holds for value > high only when the value
is also at least low and non-zero, and with the divisor max high epsilon
(the source substitutes the epsilon for every high below it, not only for
high equal to 0). -/
theorem claim_C4_formulas :
    (∀ value low high : ℚ, 0 < value → value < low →
      score_range value low high = max 0 ⌊100 * (value / low) * (8/10)⌋) ∧
    (∀ value low high : ℚ, value ≠ 0 → low ≤ value → high < value →
      score_range value low high =
        max 0 ⌊100 - 120 * ((value - high) / max high (1/1000000000))⌋) := by
  constructor
  · intro value low high h0 h1
    rw [score_range_undershoot (ne_of_gt h0) h1, max_zero_pyInt_eq_floor]
    have harg : (100 : ℚ) * (value / low) * (8/10) = value / low * 80 := by ring
    rw [harg]
  · intro value low high h0 h1 h2
    rw [score_range_overshoot h0 h1 h2, max_zero_pyInt_eq_floor]
    have harg : (100 : ℚ) - 120 * ((value - high) / max high (1/1000000000))
        = 100 - (value - high) / max high (1/1000000000) * 120 := by ring
    rw [harg]

/-- Witness for the amended claim C4 at concrete inputs. -/
theorem claim_C4_formulas_witness :
    score_range 1 50 70 = max 0 ⌊(100 : ℚ) * (1/50) * (8/10)⌋ ∧
    score_range 80 50 70 = max 0 ⌊(100 : ℚ) - 120 * ((80 - 70) / max 70 (1/1000000000))⌋ :=
  ⟨claim_C4_formulas.1 1 50 70 (by norm_num) (by norm_num),
   claim_C4_formulas.2 80 50 70 (by norm_num) (by norm_num) (by norm_num)⟩

/-- Claim C5: with 0 < low ≤ high, score_range is monotonically
non-decreasing on the interval (0, low] and monotonically non-increasing
on the interval from high upward. -/
theorem claim_C5_monotone :
    (∀ low high v1 v2 : ℚ, 0 < low → low ≤ high → 0 < v1 → v1 ≤ v2 → v2 ≤ low →
      score_range v1 low high ≤ score_range v2 low high) ∧
    (∀ low high v1 v2 : ℚ, 0 < low → low ≤ high → high ≤ v1 → v1 ≤ v2 →
      score_range v2 low high ≤ score_range v1 low high) := by
  constructor
  · intro low high v1 v2 hlow hlh hv1 h12 h2l
    rcases lt_or_eq_of_le h2l with h2lt | h2eq
    · have h1lt : v1 < low := lt_of_le_of_lt h12 h2lt
      rw [score_range_undershoot (ne_of_gt hv1) h1lt,
        score_range_undershoot (ne_of_gt (lt_of_lt_of_le hv1 h12)) h2lt]
      have hmul : v1 / low * 80 ≤ v2 / low * 80 := by
        have := (div_le_div_iff_of_pos_right hlow).mpr h12
        nlinarith
      exact max_le_max (le_refl 0) (pyInt_mono hmul)
    · have hb : score_range v2 low high = 100 :=
        score_range_inband (ne_of_gt (lt_of_lt_of_le hv1 h12)) (le_of_eq h2eq.symm)
          (by rw [h2eq]; exact hlh)
      rw [hb]
      exact score_range_le_100 hlow v1 high
  · intro low high v1 v2 hlow hlh hh1 h12
    rcases lt_or_eq_of_le hh1 with hh1lt | hh1eq
    · have hl1 : low ≤ v1 := le_trans hlh (le_of_lt hh1lt)
      have hl2 : low ≤ v2 := le_trans hl1 h12
      have hh2lt : high < v2 := lt_of_lt_of_le hh1lt h12
      rw [score_range_overshoot (ne_of_gt (lt_of_lt_of_le hlow hl1)) hl1 hh1lt,
        score_range_overshoot (ne_of_gt (lt_of_lt_of_le hlow hl2)) hl2 hh2lt]
      have hD : (0 : ℚ) < max high (1/1000000000) :=
        lt_of_lt_of_le (by norm_num) (le_max_right _ _)
      have hmul : 100 - (v2 - high) / max high (1/1000000000) * 120
          ≤ 100 - (v1 - high) / max high (1/1000000000) * 120 := by
        have hdiv : (v1 - high) / max high (1/1000000000)
            ≤ (v2 - high) / max high (1/1000000000) :=
          (div_le_div_iff_of_pos_right hD).mpr (by linarith)
        nlinarith
      exact max_le_max (le_refl 0) (pyInt_mono hmul)
    · have hlv1 : low ≤ v1 := by rw [← hh1eq]; exact hlh
      have hb : score_range v1 low high = 100 :=
        score_range_inband (ne_of_gt (lt_of_lt_of_le hlow hlv1))
          hlv1 (le_of_eq hh1eq.symm)
      rw [hb]
      exact score_range_le_100 hlow v2 high


theorem dropWhile_head_not_space :
    ∀ (l : List Char) {c : Char} {cs : List Char},
      l.dropWhile isPySpace = c :: cs → isPySpace c = false
  | [], c, cs, h => by simp [List.dropWhile] at h
  | a :: as, c, cs, h => by
    rw [List.dropWhile_cons] at h
    by_cases ha : isPySpace a = true
    · rw [if_pos ha] at h
      exact dropWhile_head_not_space as h
    · rw [if_neg ha] at h
      cases h
      simpa using ha

theorem pyStrip_eq_nil_imp_space {m : List Char} (h : pyStrip m = []) :
    ∀ x ∈ m, isPySpace x = true := by
  intro x hx
  unfold pyStrip at h
  rw [List.reverse_eq_nil_iff] at h
  have h2 : ∀ y ∈ (m.dropWhile isPySpace).reverse, isPySpace y = true :=
    List.dropWhile_eq_nil_iff.mp h
  have h3 : ∀ y ∈ m.dropWhile isPySpace, isPySpace y = true := by
    intro y hy
    exact h2 y (List.mem_reverse.mpr hy)
  have h4 : m.takeWhile isPySpace ++ m.dropWhile isPySpace = m :=
    List.takeWhile_append_dropWhile isPySpace m
  have hx2 : x ∈ m.takeWhile isPySpace ++ m.dropWhile isPySpace := by
    rw [h4]; exact hx
  rcases List.mem_append.mp hx2 with hx3 | hx3
  · exact List.mem_takeWhile_imp hx3
  · exact h3 x hx3

theorem pyStrip_not_all_space {l : List Char} (h : pyStrip l ≠ []) :
    ¬ ∀ x ∈ pyStrip l, isPySpace x = true := by
  intro hall
  rcases hb : (l.dropWhile isPySpace).reverse.dropWhile isPySpace with _ | ⟨c, cs⟩
  · apply h
    unfold pyStrip
    rw [hb]
    rfl
  · have hc : isPySpace c = false := dropWhile_head_not_space _ hb
    have hmem : c ∈ pyStrip l := by
      unfold pyStrip
      rw [hb]
      exact List.mem_reverse.mpr (List.mem_cons_self c cs)
    have := hall c hmem
    rw [hc] at this
    exact Bool.false_ne_true this

theorem pyStrip_idem_ne_nil {l : List Char} (h : pyStrip l ≠ []) :
    pyStrip (pyStrip l) ≠ [] := by
  intro h2
  exact pyStrip_not_all_space h (pyStrip_eq_nil_imp_space h2)

theorem clean_keywords_mem {keywords : List String} {x : List Char}
    (hx : x ∈ clean_keywords keywords) :
    ∃ t : String, pyStrip t.toList = x ∧ x ≠ [] := by
  unfold clean_keywords at hx
  rcases List.mem_filterMap.mp hx with ⟨t, _, hft⟩
  by_cases ht : pyStrip t.toList = []
  · rw [if_pos ht] at hft
    exact absurd hft (by simp)
  · rw [if_neg ht] at hft
    have hxt : pyStrip t.toList = x := by
      injection hft
    exact ⟨t, hxt, by rw [← hxt]; exact ht⟩

theorem clean_keywords_head_strip_ne_nil {keywords : List String}
    (hcl : clean_keywords keywords ≠ []) :
    pyStrip ((clean_keywords keywords).headD []) ≠ [] := by
  rcases List.exists_cons_of_ne_nil hcl with ⟨x, xs, hx⟩
  have hxm : x ∈ clean_keywords keywords := by
    rw [hx]
    exact List.mem_cons_self x xs
  rcases clean_keywords_mem hxm with ⟨t, hts, hxne⟩
  rw [hx]
  show pyStrip x ≠ []
  rw [← hts]
  exact pyStrip_idem_ne_nil (by rw [hts]; exact hxne)

theorem first_paragraph_score_of_bounds (b p : List Char) :
    0 ≤ first_paragraph_score_of b p ∧ first_paragraph_score_of b p ≤ 100 := by
  unfold first_paragraph_score_of
  split <;> norm_num

theorem headings_score_of_bounds (body : List Char) :
    0 ≤ headings_score_of body ∧ headings_score_of body ≤ 100 := by
  simp only [headings_score_of]
  split_ifs <;> omega

theorem meta_score_of_bounds (m p : List Char) :
    0 ≤ meta_score_of m p ∧ meta_score_of m p ≤ 100 := by
  simp only [meta_score_of]
  split_ifs <;> omega

theorem matchAt_nil (pat : List Char) (i : Nat) : matchAt [] pat i = false := by
  unfold matchAt boundaryAt wordCharAt
  simp

theorem hasMatch_nil (pat : List Char) : hasMatch [] pat = false := by
  show (List.any [0] fun i => matchAt [] pat i) = false
  simp [matchAt_nil]

theorem isSubstring_nil {p : List Char} (hp : p ≠ []) : isSubstring p [] = false := by
  rcases List.exists_cons_of_ne_nil hp with ⟨c, cs, rfl⟩
  rfl

theorem density_score_of_nil (p : List Char) : density_score_of [] p = 0 := by
  have hd : keyword_density_of [] p = 0 := rfl
  unfold density_score_of
  rw [hd, score_range_zero]
  show clamp_score (((0 : ℤ) : ℚ) * 1) = 0
  norm_num [clamp_score, pyRound]

theorem coverage_score_of_nil (cleaned : List (List Char)) :
    coverage_score_of [] cleaned = 0 := by
  unfold coverage_score_of
  have h : cleaned.filter (fun term => hasMatch [] (term.map Char.toLower)) = [] :=
    List.filter_eq_nil_iff.mpr (fun a _ => by simp [hasMatch_nil])
  rw [h]
  show clamp_score (((0 : ℕ) : ℚ) / ((cleaned.length : ℕ) : ℚ) * 100) = 0
  norm_num [clamp_score, pyRound]

theorem first_paragraph_score_of_nil {p : List Char} (hp : p ≠ []) :
    first_paragraph_score_of [] p = 0 := by
  unfold first_paragraph_score_of
  rw [show List.intercalate [' '] ((pyWords ([] : List Char)).take 100) = [] from rfl]
  rw [isSubstring_nil hp]
  rfl

theorem headings_score_of_nil : headings_score_of [] = 0 := by decide

theorem clamp_score_intCast_of_bounds {n : ℤ} (h0 : 0 ≤ n) (h1 : n ≤ 100) :
    clamp_score (n : ℚ) = n := by
  simp only [clamp_score, pyRound, Int.floor_intCast, sub_self]
  rw [if_pos (by norm_num : (0 : ℚ) < 1/2)]
  omega

theorem flesch_nil : flesch_reading_ease [] = 12122/100 := by
  have h1 : (sentence_fragments ([] : List Char)).length = 0 := rfl
  have h2 : (pyWords ([] : List Char)).length = 0 := rfl
  have h3 : ((pyWords ([] : List Char)).map count_syllables).sum = 0 := rfl
  simp only [flesch_reading_ease, h1, h2, h3]
  norm_num [Nat.zero_max]

theorem readability_score_of_nil : readability_score_of [] = 12 := by
  unfold readability_score_of
  rw [flesch_nil]
  have hsr : score_range (12122/100) 50 70 = 12 := by
    rw [score_range_overshoot (by norm_num) (by norm_num) (by norm_num)]
    rw [show max (70 : ℚ) (1/1000000000) = 70 from max_eq_left (by norm_num)]
    rw [show (100 : ℚ) - (12122/100 - 70) / 70 * 120 = 2134/175 by norm_num]
    have hfloor : pyInt (2134/175) = 12 := by
      unfold pyInt
      rw [if_pos (by norm_num : (0 : ℚ) ≤ 2134/175)]
      rw [Int.floor_eq_iff]
      constructor <;> norm_num
    rw [hfloor]
    decide
  rw [hsr]
  exact clamp_score_intCast_of_bounds (by norm_num) (by norm_num)

theorem nat_if_zero_eq_max (n : ℕ) : (if n = 0 then 1 else n) = max n 1 := by
  rcases n with _ | m
  · decide
  · rw [if_neg (Nat.succ_ne_zero m)]
    omega

/-! ## Claims about the composite evaluator -/

/-- Claim C1: for every content record, every keyword list that is
non-empty after trimming blanks, and a non-empty resolved primary keyword,
evaluation returns a result whose total score and all six sub-scores are
integers in the range 0 to 100. -/
theorem claim_C1_scores_in_range (content : SEOContent) (keywords : List String)
    (pk : Option String) (hcl : clean_keywords keywords ≠ [])
    (hpk : pyStrip (resolve_primary (clean_keywords keywords) pk) ≠ []) :
    ∃ r, evaluate_seo_content content keywords pk = EvalResult.ok r ∧
      (0 ≤ r.total_score ∧ r.total_score ≤ 100) ∧
      (0 ≤ r.keyword_density_score ∧ r.keyword_density_score ≤ 100) ∧
      (0 ≤ r.keyword_coverage_score ∧ r.keyword_coverage_score ≤ 100) ∧
      (0 ≤ r.first_paragraph_score ∧ r.first_paragraph_score ≤ 100) ∧
      (0 ≤ r.headings_score ∧ r.headings_score ≤ 100) ∧
      (0 ≤ r.readability_score ∧ r.readability_score ≤ 100) ∧
      (0 ≤ r.meta_description_score ∧ r.meta_description_score ≤ 100) := by
  refine ⟨evaluate_core content (clean_keywords keywords)
      (pyStrip (resolve_primary (clean_keywords keywords) pk)),
    ?_, ?_, ?_, ?_, ?_, ?_, ?_, ?_⟩
  · simp only [evaluate_seo_content]
    rw [if_neg hcl, if_neg hpk]
  · exact clamp_score_bounds _
  · exact clamp_score_bounds _
  · exact clamp_score_bounds _
  · exact first_paragraph_score_of_bounds _ _
  · exact headings_score_of_bounds _
  · exact clamp_score_bounds _
  · exact meta_score_of_bounds _ _

/-- Witness for claim C1 at a concrete input. -/
theorem claim_C1_scores_in_range_witness :
    ∃ r, evaluate_seo_content ⟨"T", "Body text here.", "s", "Meta."⟩ ["seo"] none
        = EvalResult.ok r ∧
      (0 ≤ r.total_score ∧ r.total_score ≤ 100) ∧
      (0 ≤ r.keyword_density_score ∧ r.keyword_density_score ≤ 100) ∧
      (0 ≤ r.keyword_coverage_score ∧ r.keyword_coverage_score ≤ 100) ∧
      (0 ≤ r.first_paragraph_score ∧ r.first_paragraph_score ≤ 100) ∧
      (0 ≤ r.headings_score ∧ r.headings_score ≤ 100) ∧
      (0 ≤ r.readability_score ∧ r.readability_score ≤ 100) ∧
      (0 ≤ r.meta_description_score ∧ r.meta_description_score ≤ 100) :=
  claim_C1_scores_in_range ⟨"T", "Body text here.", "s", "Meta."⟩ ["seo"] none
    (by decide) (by decide)

/-- Claim C2: evaluation raises exactly when the cleaned keyword list is
empty or the resolved primary keyword is blank after trimming; on every
other input it returns a result, and an error carries no partial result. -/
theorem claim_C2_error_iff (content : SEOContent) (keywords : List String)
    (pk : Option String) :
    (∃ msg, evaluate_seo_content content keywords pk = EvalResult.error msg) ↔
      (clean_keywords keywords = [] ∨
        pyStrip (resolve_primary (clean_keywords keywords) pk) = []) := by
  simp only [evaluate_seo_content]
  split_ifs with h1 h2
  · simp [h1]
  · simp [h2]
  · simp [h1, h2]

/-- Claim C6: the Flesch reading ease equals the stated formula over the
extracted words, non-blank sentence fragments and summed syllables, each
floored at 1, for every text including the empty text. -/
theorem claim_C6_flesch_formula :
    (∀ text : String,
      flesch_reading_ease text.toList =
        206835/1000
          - (1015/1000) * (((max (pyWords text.toList).length 1 : ℕ) : ℚ)
              / ((max (sentence_fragments text.toList).length 1 : ℕ) : ℚ))
          - (846/10) * (((max ((pyWords text.toList).map count_syllables).sum 1 : ℕ) : ℚ)
              / ((max (pyWords text.toList).length 1 : ℕ) : ℚ))) ∧
    flesch_reading_ease "".toList = 12122/100 := by
  constructor
  · intro text
    simp only [flesch_reading_ease, nat_if_zero_eq_max]
  · exact flesch_nil

set_option maxRecDepth 200000 in
/-- Claim C7: the headings sub-score is 40 for an H1 line plus 20 per H2
line counted up to three, capped at 100; a body with one H1 and three H2
lines scores exactly 100, and a fourth H2 line leaves the score at 100. -/
theorem claim_C7_headings_score :
    (∀ (content : SEOContent) (keywords : List String) (pk : Option String),
      clean_keywords keywords ≠ [] →
      pyStrip (resolve_primary (clean_keywords keywords) pk) ≠ [] →
      ∃ r, evaluate_seo_content content keywords pk = EvalResult.ok r ∧
        r.headings_score =
          min ((if ((pyLines content.body.toList).map pyStrip).any
                  (fun line => List.isPrefixOf ['#', ' '] line) then 40 else 0)
            + 20 * ((min (((pyLines content.body.toList).map pyStrip).filter
                  (fun line => List.isPrefixOf ['#', '#', ' '] line)).length 3 : ℕ) : ℤ)) 100) ∧
    EvalResult.headingsScore? (evaluate_seo_content
      ⟨"T", "# Title\n## Section one\n## Section two\n## Section three", "s", "m"⟩
      ["seo"] none) = some 100 ∧
    EvalResult.headingsScore? (evaluate_seo_content
      ⟨"T", "# Title\n## Section one\n## Section two\n## Section three\n## Section four", "s", "m"⟩
      ["seo"] none) = some 100 := by
  refine ⟨?_, by decide, by decide⟩
  intro content keywords pk hcl hpk
  refine ⟨evaluate_core content (clean_keywords keywords)
      (pyStrip (resolve_primary (clean_keywords keywords) pk)), ?_, ?_⟩
  · simp only [evaluate_seo_content]
    rw [if_neg hcl, if_neg hpk]
  · show headings_score_of content.body.toList = _
    simp only [headings_score_of]
    split_ifs <;> omega

/-- Witness for the universal part of claim C7 at a concrete input. -/
theorem claim_C7_headings_score_witness :
    ∃ r, evaluate_seo_content ⟨"T", "", "s", "m"⟩ ["seo"] none = EvalResult.ok r ∧
      r.headings_score =
        min ((if ((pyLines "".toList).map pyStrip).any
                (fun line => List.isPrefixOf ['#', ' '] line) then 40 else 0)
          + 20 * ((min (((pyLines "".toList).map pyStrip).filter
                (fun line => List.isPrefixOf ['#', '#', ' '] line)).length 3 : ℕ) : ℤ)) 100 :=
  claim_C7_headings_score.1 ⟨"T", "", "s", "m"⟩ ["seo"] none (by decide) (by decide)

set_option maxRecDepth 200000 in
/-- Claim C8: the meta-description sub-score is the length band part (70
inside 120 to 160, 40 in the side bands, else 0) plus 30 when the lowered
primary keyword occurs as a substring, capped at 100; a 140 character meta
description with the keyword scores 100, a 100 character one without it
scores 40. -/
theorem claim_C8_meta_score :
    (∀ (content : SEOContent) (keywords : List String) (pk : Option String),
      clean_keywords keywords ≠ [] →
      pyStrip (resolve_primary (clean_keywords keywords) pk) ≠ [] →
      ∃ r, evaluate_seo_content content keywords pk = EvalResult.ok r ∧
        r.meta_description_score =
          min ((if 120 ≤ (pyStrip content.meta_description.toList).length ∧
                    (pyStrip content.meta_description.toList).length ≤ 160 then (70 : ℤ)
                else if (90 ≤ (pyStrip content.meta_description.toList).length ∧
                      (pyStrip content.meta_description.toList).length < 120) ∨
                    (160 < (pyStrip content.meta_description.toList).length ∧
                      (pyStrip content.meta_description.toList).length ≤ 180) then 40
                else 0)
            + (if isSubstring
                  ((pyStrip (resolve_primary (clean_keywords keywords) pk)).map Char.toLower)
                  ((pyStrip content.meta_description.toList).map Char.toLower) = true
               then 30 else 0)) 100) ∧
    EvalResult.metaScore? (evaluate_seo_content
      ⟨"T", "b", "s", "seo " ++ String.mk (List.replicate 136 'x')⟩ ["seo"] none) = some 100 ∧
    EvalResult.metaScore? (evaluate_seo_content
      ⟨"T", "b", "s", String.mk (List.replicate 100 'x')⟩ ["seo"] none) = some 40 := by
  refine ⟨?_, by decide, by decide⟩
  intro content keywords pk hcl hpk
  refine ⟨evaluate_core content (clean_keywords keywords)
      (pyStrip (resolve_primary (clean_keywords keywords) pk)), ?_, rfl⟩
  simp only [evaluate_seo_content]
  rw [if_neg hcl, if_neg hpk]

/-- Witness for the universal part of claim C8 at a concrete input. -/
theorem claim_C8_meta_score_witness :
    ∃ r, evaluate_seo_content ⟨"T", "b", "s", "m"⟩ ["seo"] none = EvalResult.ok r ∧
      r.meta_description_score =
        min ((if 120 ≤ (pyStrip "m".toList).length ∧
                  (pyStrip "m".toList).length ≤ 160 then (70 : ℤ)
              else if (90 ≤ (pyStrip "m".toList).length ∧
                    (pyStrip "m".toList).length < 120) ∨
                  (160 < (pyStrip "m".toList).length ∧
                    (pyStrip "m".toList).length ≤ 180) then 40
              else 0)
          + (if isSubstring
                ((pyStrip (resolve_primary (clean_keywords ["seo"]) none)).map Char.toLower)
                ((pyStrip "m".toList).map Char.toLower) = true
             then 30 else 0)) 100 :=
  claim_C8_meta_score.1 ⟨"T", "b", "s", "m"⟩ ["seo"] none (by decide) (by decide)

/-- Claim C9: an explicit empty-string primary keyword falls back to the
first cleaned keyword and evaluation succeeds, while a whitespace-only
primary keyword raises even when the keyword list has usable keywords. -/
theorem claim_C9_truthiness (content : SEOContent) (keywords : List String)
    (hcl : clean_keywords keywords ≠ []) :
    evaluate_seo_content content keywords (some "")
        = evaluate_seo_content content keywords none ∧
    (∃ r, evaluate_seo_content content keywords (some "") = EvalResult.ok r) ∧
    evaluate_seo_content content keywords (some " ")
        = EvalResult.error "Primary keyword cannot be empty." := by
  have hhead : pyStrip (resolve_primary (clean_keywords keywords) none) ≠ [] :=
    clean_keywords_head_strip_ne_nil hcl
  refine ⟨rfl, ?_, ?_⟩
  · rw [show evaluate_seo_content content keywords (some "")
        = evaluate_seo_content content keywords none from rfl]
    simp only [evaluate_seo_content]
    rw [if_neg hcl, if_neg hhead]
    exact ⟨_, rfl⟩
  · have hblank : pyStrip (resolve_primary (clean_keywords keywords) (some " ")) = [] := by
      show pyStrip (if " ".toList = [] then (clean_keywords keywords).headD []
        else " ".toList) = []
      rw [if_neg (by decide : ¬(" ".toList = ([] : List Char)))]
      decide
    simp only [evaluate_seo_content]
    rw [if_neg hcl, if_pos hblank]

/-- Witness for claim C9 at a concrete input. -/
theorem claim_C9_truthiness_witness :
    evaluate_seo_content ⟨"T", "b", "s", "m"⟩ ["seo"] (some "")
        = evaluate_seo_content ⟨"T", "b", "s", "m"⟩ ["seo"] none ∧
    (∃ r, evaluate_seo_content ⟨"T", "b", "s", "m"⟩ ["seo"] (some "") = EvalResult.ok r) ∧
    evaluate_seo_content ⟨"T", "b", "s", "m"⟩ ["seo"] (some " ")
        = EvalResult.error "Primary keyword cannot be empty." :=
  claim_C9_truthiness ⟨"T", "b", "s", "m"⟩ ["seo"] (by decide)

/-- Claim C10: with an empty body and valid keywords, the readability
sub-score is 12 (not 0), while the density, coverage, first-paragraph and
headings sub-scores are all 0. -/
theorem claim_C10_empty_body (content : SEOContent) (keywords : List String)
    (pk : Option String) (hbody : content.body = "")
    (hcl : clean_keywords keywords ≠ [])
    (hpk : pyStrip (resolve_primary (clean_keywords keywords) pk) ≠ []) :
    ∃ r, evaluate_seo_content content keywords pk = EvalResult.ok r ∧
      r.readability_score = 12 ∧ r.keyword_density_score = 0 ∧
      r.keyword_coverage_score = 0 ∧ r.first_paragraph_score = 0 ∧
      r.headings_score = 0 := by
  refine ⟨evaluate_core content (clean_keywords keywords)
      (pyStrip (resolve_primary (clean_keywords keywords) pk)),
    ?_, ?_, ?_, ?_, ?_, ?_⟩
  · simp only [evaluate_seo_content]
    rw [if_neg hcl, if_neg hpk]
  · show readability_score_of content.body.toList = 12
    rw [hbody]
    exact readability_score_of_nil
  · show density_score_of (content.body.toList.map Char.toLower)
        ((pyStrip (resolve_primary (clean_keywords keywords) pk)).map Char.toLower) = 0
    rw [hbody]
    exact density_score_of_nil _
  · show coverage_score_of (content.body.toList.map Char.toLower)
        (clean_keywords keywords) = 0
    rw [hbody]
    exact coverage_score_of_nil _
  · show first_paragraph_score_of (content.body.toList.map Char.toLower)
        ((pyStrip (resolve_primary (clean_keywords keywords) pk)).map Char.toLower) = 0
    rw [hbody]
    refine first_paragraph_score_of_nil (fun hmap => hpk ?_)
    exact List.map_eq_nil_iff.mp hmap
  · show headings_score_of content.body.toList = 0
    rw [hbody]
    exact headings_score_of_nil

/-- Witness for claim C10 at a concrete input. -/
theorem claim_C10_empty_body_witness :
    ∃ r, evaluate_seo_content ⟨"T", "", "s", "m"⟩ ["seo"] none = EvalResult.ok r ∧
      r.readability_score = 12 ∧ r.keyword_density_score = 0 ∧
      r.keyword_coverage_score = 0 ∧ r.first_paragraph_score = 0 ∧
      r.headings_score = 0 :=
  claim_C10_empty_body ⟨"T", "", "s", "m"⟩ ["seo"] none rfl (by decide) (by decide)

/-- Witness for claim C5 at concrete inputs on both sides of the band. -/
theorem claim_C5_monotone_witness :
    score_range 10 50 70 ≤ score_range 20 50 70 ∧
    score_range 90 50 70 ≤ score_range 80 50 70 :=
  ⟨claim_C5_monotone.1 50 70 10 20 (by norm_num) (by norm_num) (by norm_num)
      (by norm_num) (by norm_num),
   claim_C5_monotone.2 50 70 80 90 (by norm_num) (by norm_num) (by norm_num)
      (by norm_num)⟩
